import Mathlib

/-!
Shallow embedding of `src/server.js` (image-gallery web service).

The source file contains two concatenated variants of the same Express
server: a local-disk storage variant and a Cloudinary storage variant.
The route logic (signup, login, categories, images, guards) is identical
in both except for the storage backend and the MIME allow-list (the
Cloudinary variant additionally allows webp). We embed the Cloudinary
variant, which is the final one in the file; storage effects are modelled
by an explicit outcome parameter.

JavaScript numbers appearing as `parseInt` results are modelled by `JNum`
(an integer or NaN), with strict equality `JNum.seq` where NaN compares
unequal to everything, including itself. Password hashing (`bcrypt.hash`
with a salt, and `bcrypt.compare`) is modelled by an abstract function
`hash : String → String`, with `bcrypt.compare p h` embedded as
`hash p == h`; theorems that need different plaintexts to hash differently
take injectivity of `hash` as a hypothesis.
-/

/-- A JavaScript number as produced by `parseInt`: an integer or NaN. -/
inductive JNum where
  | nan : JNum
  | int : Int → JNum
deriving DecidableEq

/-- JavaScript strict equality `===` on `JNum`: NaN is unequal to
everything, including NaN itself. -/
def JNum.seq : JNum → JNum → Bool
  | JNum.int a, JNum.int b => a == b
  | _, _ => false

/-- Numeric value of a list of decimal digit characters. -/
def digitsVal (cs : List Char) : Nat :=
  cs.foldl (fun a c => a * 10 + (c.toNat - 48)) 0

/-- JavaScript `parseInt(s)` restricted to base-10 inputs as used by the
server: an optional sign followed by a maximal run of decimal digits;
NaN when no digits are found. -/
def parseIntJs (s : String) : JNum :=
  match s.data with
  | [] => JNum.nan
  | c :: rest =>
    if c == '-' then
      match rest.takeWhile Char.isDigit with
      | [] => JNum.nan
      | ds => JNum.int (- (digitsVal ds : Int))
    else if c == '+' then
      match rest.takeWhile Char.isDigit with
      | [] => JNum.nan
      | ds => JNum.int (digitsVal ds)
    else
      match (c :: rest).takeWhile Char.isDigit with
      | [] => JNum.nan
      | ds => JNum.int (digitsVal ds)

/-- A record of the in-memory `users` array (src/server.js line 325):
`{id, username, password, isAdmin}`. -/
structure User where
  id : Int
  username : String
  password : String
  isAdmin : Bool
deriving DecidableEq

/-- An express-session `req.session`: the fields `userId`, `username`,
`isAdmin` that the login handler sets; `none` models an unset
(JS `undefined`) property, i.e. an anonymous session. -/
structure Session where
  userId : Option Int
  username : Option String
  isAdmin : Option Bool
deriving DecidableEq

/-- A record of the in-memory `categories` array: `{id, name, createdAt}`.
Timestamps are opaque naturals. -/
structure Category where
  id : Int
  name : String
  createdAt : Nat
deriving DecidableEq

/-- A record of the in-memory `images` array (Cloudinary variant,
src/server.js lines 526-536). -/
structure Image where
  id : Int
  fileName : String
  originalName : String
  cloudinaryUrl : String
  cloudinaryPublicId : String
  categoryId : JNum
  uploadedBy : Option String
  uploadedAt : Nat
  path : String
deriving DecidableEq

/-- An uploaded file as seen in `req.files.image`: its name and MIME type. -/
structure FileData where
  name : String
  mimetype : String
deriving DecidableEq

/-- Response of POST /api/signup: an error status with body, or the
success body `{message, isAdmin}`. -/
inductive SignupResp where
  | err : Nat → String → SignupResp
  | ok : String → Bool → SignupResp
deriving DecidableEq

/-- Whether a signup response is the success response. -/
def SignupResp.isOk : SignupResp → Bool
  | SignupResp.ok _ _ => true
  | SignupResp.err _ _ => false

/-- The `isAdmin` field reported in a successful signup response
(false for error responses). -/
def SignupResp.reportedAdmin : SignupResp → Bool
  | SignupResp.ok _ adm => adm
  | SignupResp.err _ _ => false

/-- Response of POST /api/login: an error status with body, or the
success body `{message, isAdmin, username}`. -/
inductive LoginResp where
  | err : Nat → String → LoginResp
  | ok : String → Bool → String → LoginResp
deriving DecidableEq

/-- Whether a login response is the success response. -/
def LoginResp.isOk : LoginResp → Bool
  | LoginResp.ok _ _ _ => true
  | LoginResp.err _ _ => false

/-- Response of POST /api/categories. -/
inductive CatResp where
  | err : Nat → String → CatResp
  | ok : Category → CatResp
deriving DecidableEq

/-- HTTP status of a category-creation response. -/
def CatResp.status : CatResp → Nat
  | CatResp.err s _ => s
  | CatResp.ok _ => 200

/-- Response of POST /api/upload. -/
inductive UploadResp where
  | err : Nat → String → UploadResp
  | ok : Image → UploadResp
deriving DecidableEq

/-- HTTP status of an upload response. -/
def UploadResp.status : UploadResp → Nat
  | UploadResp.err s _ => s
  | UploadResp.ok _ => 200

/-- Response of DELETE /api/images/:id. -/
inductive DeleteResp where
  | err : Nat → String → DeleteResp
  | ok : String → DeleteResp
deriving DecidableEq

/-- HTTP status of a delete response. -/
def DeleteResp.status : DeleteResp → Nat
  | DeleteResp.err s _ => s
  | DeleteResp.ok _ => 200

/-- Response of GET /api/download/:id: an error, or a redirect to the
Cloudinary URL (`res.redirect`, status 302). -/
inductive DownloadResp where
  | err : Nat → String → DownloadResp
  | redirect : String → DownloadResp
deriving DecidableEq

/-- HTTP status of a download response. -/
def DownloadResp.status : DownloadResp → Nat
  | DownloadResp.err s _ => s
  | DownloadResp.redirect _ => 302

/-- The `isAdmin` middleware (src/server.js lines 377-382):
`req.session.userId && req.session.isAdmin`, with JavaScript truthiness
(an unset property and the number 0 are falsy). -/
def isAdmin (s : Session) : Bool :=
  (match s.userId with
   | some n => n != 0
   | none => false)
  &&
  (match s.isAdmin with
   | some b => b
   | none => false)

/-- `initializeAdmin` (src/server.js lines 356-365): pushes the bootstrap
admin user `{id: 1, username, password: hash(pw), isAdmin: true}` onto the
users array. Run once at server startup, before any request is served. -/
def initializeAdmin (hash : String → String) (adminUsername adminPassword : String)
    (users : List User) : List User :=
  users ++ [⟨1, adminUsername, hash adminPassword, true⟩]

/-- POST /api/signup handler (src/server.js lines 387-412). Returns the
new users array and the response. JS truthiness `!username || !password`
on strings is emptiness. -/
def signup (hash : String → String) (users : List User) (username password : String) :
    List User × SignupResp :=
  if username == "" || password == "" then
    (users, SignupResp.err 400 "Username and password required")
  else
    match users.find? (fun u => u.username == username) with
    | some _ => (users, SignupResp.err 400 "Username already exists")
    | none =>
      let newUser : User :=
        ⟨(users.length : Int) + 1, username, hash password, users.length == 0⟩
      (users ++ [newUser], SignupResp.ok "User created successfully" newUser.isAdmin)

/-- Runs a sequence of signup requests against the store, returning the
list of responses in order. -/
def runSignups (hash : String → String) (users : List User) :
    List (String × String) → List SignupResp
  | [] => []
  | (u, p) :: rest =>
    (signup hash users u p).2 :: runSignups hash (signup hash users u p).1 rest

/-- POST /api/login handler (src/server.js lines 415-441). `bcrypt.compare
password user.password` is embedded as `hash password == user.password`. -/
def login (hash : String → String) (users : List User) (username password : String) :
    LoginResp :=
  match users.find? (fun u => u.username == username) with
  | none => LoginResp.err 401 "Invalid credentials"
  | some user =>
    if hash password == user.password then
      LoginResp.ok "Login successful" user.isAdmin user.username
    else
      LoginResp.err 401 "Invalid credentials"

/-- POST /api/categories handler with its `isAdmin` guard
(src/server.js lines 463-482). `!name` on strings is emptiness;
`new Date()` is the `now` parameter. -/
def createCategory (sess : Session) (categories : List Category) (name : String)
    (now : Nat) : List Category × CatResp :=
  if isAdmin sess then
    if name == "" then
      (categories, CatResp.err 400 "Category name required")
    else
      (categories ++ [⟨(categories.length : Int) + 1, name, now⟩],
       CatResp.ok ⟨(categories.length : Int) + 1, name, now⟩)
  else
    (categories, CatResp.err 403 "Admin access required")

/-- The upload MIME allow-list (Cloudinary variant, src/server.js line 500). -/
def allowedTypes : List String :=
  ["image/jpeg", "image/jpg", "image/png", "image/gif", "image/webp"]

/-- POST /api/upload handler with its `isAdmin` guard (src/server.js lines
490-544). `storageResult` models the Cloudinary upload outcome: `none` if
`upload_stream` reports an error (the await throws, caught as a 500), or
`some (secure_url, public_id)` on success. The middle component of the
result records whether a binary was stored by the call. `parseInt` of an
absent `categoryId` body field (JS `undefined`) is NaN. -/
def uploadImage (sess : Session) (images : List Image) (file : Option FileData)
    (categoryId : Option String) (now : Nat) (storageResult : Option (String × String)) :
    List Image × Bool × UploadResp :=
  if isAdmin sess then
    match file with
    | none => (images, false, UploadResp.err 400 "No image uploaded")
    | some image =>
      if allowedTypes.contains image.mimetype then
        match storageResult with
        | none => (images, false, UploadResp.err 500 "Failed to upload image to Cloudinary")
        | some (url, publicId) =>
          let newImage : Image :=
            ⟨(images.length : Int) + 1, image.name, image.name, url, publicId,
             (match categoryId with
              | none => JNum.nan
              | some s => parseIntJs s),
             sess.username, now, url⟩
          (images ++ [newImage], true, UploadResp.ok newImage)
      else
        (images, false, UploadResp.err 400 "Only image files allowed")
  else
    (images, false, UploadResp.err 403 "Admin access required")

/-- GET /api/images handler (src/server.js lines 547-556). The query
parameter is `none` when absent; `if (categoryId)` makes the empty string
falsy, so an empty parameter also means no filtering. The filter is JS
strict equality against `parseInt(categoryId)`. -/
def listImages (images : List Image) (categoryId : Option String) : List Image :=
  match categoryId with
  | none => images
  | some s =>
    if s == "" then images
    else images.filter (fun img => img.categoryId.seq (parseIntJs s))

/-- GET /api/download/:id handler with its `isAdmin` guard (src/server.js
lines 559-573): find the image by `parseInt(req.params.id)` and redirect
to its Cloudinary URL. -/
def downloadImage (sess : Session) (images : List Image) (idParam : String) :
    DownloadResp :=
  if isAdmin sess then
    match images.find? (fun img => JNum.seq (JNum.int img.id) (parseIntJs idParam)) with
    | none => DownloadResp.err 404 "Image not found"
    | some image => DownloadResp.redirect image.cloudinaryUrl
  else
    DownloadResp.err 403 "Admin access required"

/-- `Array.prototype.findIndex` with its sentinel `-1` mapped to `none`. -/
def findIdxO {α : Type} (p : α → Bool) : List α → Option Nat
  | [] => none
  | a :: t => if p a then some 0 else Option.map (fun n => n + 1) (findIdxO p t)

/-- DELETE /api/images/:id handler with its `isAdmin` guard (src/server.js
lines 576-598). `storageOk` models the Cloudinary `destroy` call: when it
throws (`false`), the catch returns a 500 and the `splice` is never
reached, so the metadata record stays. `splice(imageIndex, 1)` is
`eraseIdx`. -/
def deleteImage (sess : Session) (images : List Image) (idParam : String)
    (storageOk : Bool) : List Image × DeleteResp :=
  if isAdmin sess then
    match findIdxO (fun img => JNum.seq (JNum.int img.id) (parseIntJs idParam)) images with
    | none => (images, DeleteResp.err 404 "Image not found")
    | some imageIndex =>
      if storageOk then
        (images.eraseIdx imageIndex, DeleteResp.ok "Image deleted successfully")
      else
        (images, DeleteResp.err 500 "Failed to delete image")
  else
    (images, DeleteResp.err 403 "Admin access required")

/-! ## Helper lemmas -/

/-- A signup either fails and leaves the store unchanged, or succeeds and
appends the new user, whose admin flag records whether the store was empty. -/
theorem signup_cases (hash : String → String) (users : List User) (u p : String) :
    ((signup hash users u p).1 = users ∧ (signup hash users u p).2.isOk = false)
    ∨ ((signup hash users u p).1
          = users ++ [⟨(users.length : Int) + 1, u, hash p, users.length == 0⟩]
       ∧ (signup hash users u p).2
          = SignupResp.ok "User created successfully" (users.length == 0)) := by
  unfold signup
  split
  · exact Or.inl ⟨rfl, rfl⟩
  · split
    · exact Or.inl ⟨rfl, rfl⟩
    · exact Or.inr ⟨rfl, rfl⟩

/-- Unfolding equation for `runSignups` on a cons. -/
theorem runSignups_cons (hash : String → String) (users : List User)
    (u p : String) (rest : List (String × String)) :
    runSignups hash users ((u, p) :: rest)
      = (signup hash users u p).2 :: runSignups hash (signup hash users u p).1 rest := rfl

/-- In any run of signups, a successful response reports `isAdmin = true`
exactly when the starting store was empty and no earlier request in the
run succeeded. -/
theorem runSignups_reportedAdmin (hash : String → String) :
    ∀ (seq : List (String × String)) (users : List User) (i : Nat) (r : SignupResp),
      (runSignups hash users seq)[i]? = some r → r.isOk = true →
      r.reportedAdmin
        = ((users.length == 0)
            && ((runSignups hash users seq).take i).all (fun x => ! x.isOk)) := by
  intro seq
  induction seq with
  | nil =>
    intro users i r h hok
    simp [runSignups] at h
  | cons hd rest ih =>
    intro users i r hr hok
    obtain ⟨u, p⟩ := hd
    rw [runSignups_cons] at hr ⊢
    rcases signup_cases hash users u p with ⟨h1, h2⟩ | ⟨h1, h2⟩
    · cases i with
      | zero =>
        rw [List.getElem?_cons_zero, Option.some_inj] at hr
        rw [← hr] at hok
        rw [h2] at hok
        exact absurd hok (by simp)
      | succ n =>
        rw [List.getElem?_cons_succ] at hr
        rw [h1] at hr
        have := ih users n r hr hok
        rw [this, List.take_succ_cons, List.all_cons, h1]
        have hnot : (! (signup hash users u p).2.isOk) = true := by
          rw [h2]
          rfl
        rw [hnot]
        simp
    · cases i with
      | zero =>
        rw [List.getElem?_cons_zero, Option.some_inj] at hr
        rw [← hr, h2]
        simp [SignupResp.reportedAdmin]
      | succ n =>
        rw [List.getElem?_cons_succ] at hr
        have := ih (signup hash users u p).1 n r hr hok
        rw [this, h1]
        have hlen : ((users ++ [(⟨(users.length : Int) + 1, u, hash p,
            users.length == 0⟩ : User)]).length == 0) = false := by
          simp
        rw [hlen, List.take_succ_cons, List.all_cons, h2]
        simp [SignupResp.isOk]

/-! ## C1 -/

/-- C1 counterexample: the server runs `initializeAdmin` at startup, so
when the first signup request arrives the users array already holds the
bootstrap admin. Running the sequence consisting of one signup from the
store's initial state (as established at startup) succeeds but reports
`isAdmin = false`, refuting the claim that the first successful signup
reports `isAdmin = true`. -/
theorem first_signup_after_bootstrap_not_admin :
    runSignups (fun s => s) (initializeAdmin (fun s => s) "admin" "admin123" [])
        [("alice", "secret")]
      = [SignupResp.ok "User created successfully" false]
    ∧ SignupResp.ok "User created successfully" false
        ≠ SignupResp.ok "User created successfully" true := by
  exact ⟨by decide, by decide⟩

/-- C1 (amended): starting from the empty users array, a successful signup
in a run reports `isAdmin = true` exactly when no earlier signup in the
run succeeded (so the first successful signup reports true and all later
ones report false); starting from the state left by `initializeAdmin`,
which the server establishes before serving, every successful signup
reports `isAdmin = false`. -/
theorem signup_admin_iff_first_from_empty (hash : String → String)
    (adminUsername adminPassword : String) (seq : List (String × String))
    (i : Nat) (r r' : SignupResp)
    (h1 : (runSignups hash [] seq)[i]? = some r)
    (h2 : (runSignups hash (initializeAdmin hash adminUsername adminPassword []) seq)[i]?
            = some r') :
    (r.isOk = true →
      r.reportedAdmin = ((runSignups hash [] seq).take i).all (fun x => ! x.isOk))
    ∧ (r'.isOk = true → r'.reportedAdmin = false) := by
  constructor
  · intro hok
    have := runSignups_reportedAdmin hash seq [] i r h1 hok
    simpa using this
  · intro hok
    have := runSignups_reportedAdmin hash seq
      (initializeAdmin hash adminUsername adminPassword []) i r' h2 hok
    simpa [initializeAdmin] using this

/-- Witness for C1's amended theorem at a concrete run of two signups. -/
theorem signup_admin_iff_first_from_empty_witness :
    ((SignupResp.ok "User created successfully" false).isOk = true →
      (SignupResp.ok "User created successfully" false).reportedAdmin
        = ((runSignups (fun s => s) [] [("a", "x"), ("b", "y")]).take 1).all
            (fun x => ! x.isOk))
    ∧ ((SignupResp.ok "User created successfully" false).isOk = true →
      (SignupResp.ok "User created successfully" false).reportedAdmin = false) := by
  exact signup_admin_iff_first_from_empty (fun s => s) "admin" "admin123"
    [("a", "x"), ("b", "y")] 1
    (SignupResp.ok "User created successfully" false)
    (SignupResp.ok "User created successfully" false)
    (by decide) (by decide)

/-! ## C2 -/

/-- C2 counterexample: the handler checks `!username || !password` before
the duplicate-username check, so a signup whose username duplicates the
existing user "admin" but whose password is the empty string fails with
the missing-fields error body, not the DuplicateUsername body (though
still 400 and store unchanged). -/
theorem duplicate_signup_empty_password_not_duplicate_error :
    signup (fun s => s) [⟨1, "admin", "admin123", true⟩] "admin" ""
      = ([⟨1, "admin", "admin123", true⟩],
         SignupResp.err 400 "Username and password required")
    ∧ SignupResp.err 400 "Username and password required"
        ≠ SignupResp.err 400 "Username already exists" := by
  exact ⟨by decide, by decide⟩

/-- C2 (amended): for every user store and every NON-EMPTY password, a
signup whose (necessarily non-empty) username equals the username of some
existing user fails with the DuplicateUsername error (status 400) and
leaves the user store unchanged. (With an empty password — or an empty
username — the request instead fails with the missing-fields error,
which is also a 400 that leaves the store unchanged.) -/
theorem signup_duplicate_username (hash : String → String) (users : List User)
    (username password : String) (hu : username ≠ "") (hp : password ≠ "")
    (hdup : ∃ u ∈ users, u.username = username) :
    signup hash users username password
      = (users, SignupResp.err 400 "Username already exists") := by
  have hfind : (users.find? (fun u => u.username == username)).isSome := by
    rw [List.find?_isSome]
    obtain ⟨u, hu', heq⟩ := hdup
    exact ⟨u, hu', by simp [heq]⟩
  unfold signup
  have hcond : (username == "" || password == "") = false := by
    simp [hu, hp]
  rw [hcond]
  simp only [Bool.false_eq_true, if_false]
  cases h : users.find? (fun u => u.username == username) with
  | none => rw [h] at hfind; simp at hfind
  | some u => rfl

/-- Witness for C2's amended theorem at a concrete store. -/
theorem signup_duplicate_username_witness :
    signup (fun s => s) [⟨1, "admin", "admin123", true⟩] "admin" "pw"
      = ([⟨1, "admin", "admin123", true⟩],
         SignupResp.err 400 "Username already exists") := by
  exact signup_duplicate_username (fun s => s) [⟨1, "admin", "admin123", true⟩]
    "admin" "pw" (by decide) (by decide) ⟨⟨1, "admin", "admin123", true⟩, by decide⟩

/-! ## C3 -/

/-- Characterization of a successful signup: both fields were non-empty,
the username was free, and the store gained exactly the new user. -/
theorem signup_ok_spec (hash : String → String) (users : List User)
    (username password : String)
    (hok : (signup hash users username password).2.isOk = true) :
    username ≠ "" ∧ password ≠ ""
    ∧ users.find? (fun u => u.username == username) = none
    ∧ (signup hash users username password).1
        = users ++ [⟨(users.length : Int) + 1, username, hash password, users.length == 0⟩]
    ∧ (signup hash users username password).2
        = SignupResp.ok "User created successfully" (users.length == 0) := by
  unfold signup at hok
  split at hok
  · simp [SignupResp.isOk] at hok
  · next hcond =>
    split at hok
    · simp [SignupResp.isOk] at hok
    · next hfind =>
      have hne : ¬(username = "" ∨ password = "") := by
        intro hor
        apply hcond
        rcases hor with h | h <;> simp [h]
      push_neg at hne
      refine ⟨hne.1, hne.2, hfind, ?_, ?_⟩
      · unfold signup
        rw [if_neg hcond, hfind]
      · unfold signup
        rw [if_neg hcond, hfind]

/-- C3: login succeeds iff a user with the given username exists whose
stored hash matches the password (over stores with distinct usernames,
which signup maintains); and after a successful signup with plaintext
`password`, login with the same username and `password` succeeds while
login with any other plaintext fails (given an injective hash). -/
theorem login_iff_user_and_hash (hash : String → String)
    (hinj : Function.Injective hash) (users : List User)
    (hdist : users.Pairwise (fun a b => a.username ≠ b.username))
    (username password : String) :
    ((login hash users username password).isOk = true
        ↔ ∃ u ∈ users, u.username = username ∧ u.password = hash password)
    ∧ ((signup hash users username password).2.isOk = true →
        (login hash (signup hash users username password).1 username password).isOk = true
        ∧ ∀ p', p' ≠ password →
            (login hash (signup hash users username password).1 username p').isOk
              = false) := by
  constructor
  · cases hf : users.find? (fun u => u.username == username) with
    | none =>
      have hlog : login hash users username password
          = LoginResp.err 401 "Invalid credentials" := by
        unfold login; rw [hf]
      rw [hlog]
      apply iff_of_false (by simp [LoginResp.isOk])
      rintro ⟨u, hu, h1, h2⟩
      have := List.find?_eq_none.mp hf u hu
      simp [h1] at this
    | some u =>
      have hmem : u ∈ users := List.mem_of_find?_eq_some hf
      have huser : u.username = username := by
        have := List.find?_some hf
        simpa using this
      by_cases hpw : (hash password == u.password) = true
      · have hlog : login hash users username password
            = LoginResp.ok "Login successful" u.isAdmin u.username := by
          unfold login
          rw [hf]
          dsimp only
          rw [if_pos hpw]
        rw [hlog]
        apply iff_of_true rfl
        exact ⟨u, hmem, huser, (beq_iff_eq.mp hpw).symm⟩
      · have hlog : login hash users username password
            = LoginResp.err 401 "Invalid credentials" := by
          unfold login
          rw [hf]
          dsimp only
          rw [if_neg hpw]
        rw [hlog]
        apply iff_of_false (by simp [LoginResp.isOk])
        rintro ⟨v, hv, hv1, hv2⟩
        by_cases huv : u = v
        · rw [← huv] at hv2
          exact hpw (by simp [hv2])
        · have hsym : Symmetric (fun a b : User => a.username ≠ b.username) :=
            fun a b h e => h e.symm
          exact hdist.forall hsym hmem hv huv (huser.trans hv1.symm)
  · intro hok
    obtain ⟨hun, hpn, hfind, hstore, _⟩ :=
      signup_ok_spec hash users username password hok
    have hfind' : ∀ q : String,
        ((signup hash users username password).1).find?
            (fun u => u.username == username)
          = some ⟨(users.length : Int) + 1, username, hash password,
                  users.length == 0⟩ := by
      intro q
      rw [hstore, List.find?_append, hfind]
      simp [List.find?]
    constructor
    · unfold login
      rw [hfind' password]
      simp [LoginResp.isOk]
    · intro p' hp'
      unfold login
      rw [hfind' p']
      by_cases h : (hash p' == hash password) = true
      · exact absurd (hinj (beq_iff_eq.mp h)) hp'
      · simp only [h]
        simp [LoginResp.isOk]

/-- Witness for C3 at a concrete store: the identity function as hash,
the empty store, then one signup. -/
theorem login_iff_user_and_hash_witness :
    (((login (fun s => s) [] "alice" "pw").isOk = true
        ↔ ∃ u ∈ ([] : List User), u.username = "alice" ∧ u.password = "pw")
    ∧ (((signup (fun s => s) [] "alice" "pw").2.isOk = true →
        (login (fun s => s) (signup (fun s => s) [] "alice" "pw").1 "alice" "pw").isOk
            = true
        ∧ ∀ p', p' ≠ "pw" →
            (login (fun s => s) (signup (fun s => s) [] "alice" "pw").1 "alice" p').isOk
              = false))) := by
  exact login_iff_user_and_hash (fun s => s) (fun a b h => h) [] (by simp) "alice" "pw"

/-! ## C4 -/

/-- C4: a login failing because the username is unknown and a login
failing because the password is wrong produce identical responses: the
same 401 status and the same generic "Invalid credentials" body, so the
response does not reveal whether the username exists. -/
theorem login_failure_no_leak (hash : String → String)
    (users1 users2 : List User) (un1 p1 un2 p2 : String)
    (h1 : users1.find? (fun u => u.username == un1) = none)
    (u : User) (h2 : users2.find? (fun u => u.username == un2) = some u)
    (h3 : (hash p2 == u.password) = false) :
    login hash users1 un1 p1 = login hash users2 un2 p2
    ∧ login hash users1 un1 p1 = LoginResp.err 401 "Invalid credentials" := by
  have e1 : login hash users1 un1 p1 = LoginResp.err 401 "Invalid credentials" := by
    unfold login
    rw [h1]
  have e2 : login hash users2 un2 p2 = LoginResp.err 401 "Invalid credentials" := by
    unfold login
    rw [h2]
    dsimp only
    rw [if_neg (by simp [h3])]
  exact ⟨e1.trans e2.symm, e1⟩

/-- Witness for C4: unknown user "bob" on one store versus wrong password
for "admin" on another. -/
theorem login_failure_no_leak_witness :
    login (fun s => s) [] "bob" "x"
        = login (fun s => s) [⟨1, "admin", "admin123", true⟩] "admin" "wrong"
    ∧ login (fun s => s) [] "bob" "x" = LoginResp.err 401 "Invalid credentials" := by
  exact login_failure_no_leak (fun s => s) [] [⟨1, "admin", "admin123", true⟩]
    "bob" "x" "admin" "wrong" (by decide) ⟨1, "admin", "admin123", true⟩
    (by decide) (by decide)

/-! ## C5 -/

/-- C5: for an admin session, category creation with an empty name fails
with the InvalidInput error (status 400) and leaves the registry
unchanged, and creation with a non-empty name succeeds, appending a
category whose id is the registry's size before insertion plus 1. -/
theorem createCategory_spec (sess : Session) (hadm : isAdmin sess = true)
    (categories : List Category) (name : String) (now : Nat) :
    (name = "" →
      createCategory sess categories name now
        = (categories, CatResp.err 400 "Category name required"))
    ∧ (name ≠ "" →
      createCategory sess categories name now
        = (categories ++ [⟨(categories.length : Int) + 1, name, now⟩],
           CatResp.ok ⟨(categories.length : Int) + 1, name, now⟩)) := by
  constructor
  · intro hname
    unfold createCategory
    rw [hadm, if_pos rfl, if_pos (by simp [hname])]
  · intro hname
    unfold createCategory
    rw [hadm, if_pos rfl, if_neg (by simp [hname])]

/-- Witness for C5 at a concrete admin session, one empty and one
non-empty name. -/
theorem createCategory_spec_witness :
    createCategory ⟨some 1, some "admin", some true⟩ [] "" 7
        = ([], CatResp.err 400 "Category name required")
    ∧ createCategory ⟨some 1, some "admin", some true⟩ [] "nature" 7
        = ([⟨(0 : Int) + 1, "nature", 7⟩], CatResp.ok ⟨(0 : Int) + 1, "nature", 7⟩) := by
  constructor
  · exact (createCategory_spec ⟨some 1, some "admin", some true⟩ rfl [] "" 7).1 rfl
  · exact (createCategory_spec ⟨some 1, some "admin", some true⟩ rfl [] "nature" 7).2
      (by decide)

/-! ## C6 -/

/-- C6: listing with a (non-empty) filter string denoting the integer `K`
returns exactly the sublist of images whose categoryId strictly equals
`K`, in stored (insertion) order; when no image matches, the result is
the empty list, not an error; listing without a filter returns all
images. -/
theorem listImages_filter_spec (images : List Image) (s : String) (K : Int)
    (hs : s ≠ "") (hK : parseIntJs s = JNum.int K) :
    listImages images (some s)
        = images.filter (fun img => img.categoryId.seq (JNum.int K))
    ∧ ((∀ img ∈ images, img.categoryId.seq (JNum.int K) = false) →
        listImages images (some s) = [])
    ∧ listImages images none = images := by
  have h1 : listImages images (some s)
      = images.filter (fun img => img.categoryId.seq (JNum.int K)) := by
    unfold listImages
    dsimp only
    rw [if_neg (by simp [hs]), hK]
  refine ⟨h1, ?_, rfl⟩
  intro hnone
  rw [h1]
  exact List.filter_eq_nil_iff.mpr (by simpa using hnone)

/-- Witness for C6 at a concrete registry with one matching and one
non-matching image. -/
theorem listImages_filter_spec_witness :
    listImages [⟨1, "a", "a", "u", "p", JNum.int 2, some "admin", 0, "u"⟩,
                ⟨2, "b", "b", "v", "q", JNum.int 3, some "admin", 0, "v"⟩] (some "2")
        = List.filter (fun img => img.categoryId.seq (JNum.int 2))
            [⟨1, "a", "a", "u", "p", JNum.int 2, some "admin", 0, "u"⟩,
             ⟨2, "b", "b", "v", "q", JNum.int 3, some "admin", 0, "v"⟩]
    ∧ ((∀ img ∈ ([⟨1, "a", "a", "u", "p", JNum.int 2, some "admin", 0, "u"⟩,
                  ⟨2, "b", "b", "v", "q", JNum.int 3, some "admin", 0, "v"⟩] : List Image),
          img.categoryId.seq (JNum.int 2) = false) →
        listImages [⟨1, "a", "a", "u", "p", JNum.int 2, some "admin", 0, "u"⟩,
                    ⟨2, "b", "b", "v", "q", JNum.int 3, some "admin", 0, "v"⟩] (some "2")
          = [])
    ∧ listImages [⟨1, "a", "a", "u", "p", JNum.int 2, some "admin", 0, "u"⟩,
                  ⟨2, "b", "b", "v", "q", JNum.int 3, some "admin", 0, "v"⟩] none
        = [⟨1, "a", "a", "u", "p", JNum.int 2, some "admin", 0, "u"⟩,
           ⟨2, "b", "b", "v", "q", JNum.int 3, some "admin", 0, "v"⟩] := by
  exact listImages_filter_spec
    [⟨1, "a", "a", "u", "p", JNum.int 2, some "admin", 0, "u"⟩,
     ⟨2, "b", "b", "v", "q", JNum.int 3, some "admin", 0, "v"⟩]
    "2" 2 (by decide) (by decide)

/-! ## C7 -/

/-- `findIdxO` returns `none` exactly when no element satisfies the
predicate. -/
theorem findIdxO_eq_none_iff {α : Type} (p : α → Bool) :
    ∀ l : List α, findIdxO p l = none ↔ ∀ a ∈ l, p a = false := by
  intro l
  induction l with
  | nil => simp [findIdxO]
  | cons a t ih =>
    by_cases hpa : p a = true
    · simp [findIdxO, hpa]
    · simp only [Bool.not_eq_true] at hpa
      simp [findIdxO, hpa, ih]

/-- Erasing at the index found by `findIdxO` equals filtering the match
out, provided at most one element matches. -/
theorem eraseIdx_findIdxO {α : Type} (p : α → Bool) :
    ∀ (l : List α) (i : Nat),
      l.Pairwise (fun a b => ¬(p a = true ∧ p b = true)) →
      findIdxO p l = some i →
      l.eraseIdx i = l.filter (fun a => ! p a) := by
  intro l
  induction l with
  | nil =>
    intro i _ h
    simp [findIdxO] at h
  | cons a t ih =>
    intro i hpw h
    rw [List.pairwise_cons] at hpw
    unfold findIdxO at h
    by_cases hpa : p a = true
    · rw [if_pos hpa, Option.some_inj] at h
      rw [← h]
      have hrest : t.filter (fun x => ! p x) = t := by
        apply List.filter_eq_self.mpr
        intro b hb
        have := hpw.1 b hb
        simp [hpa] at this
        simp [this]
      simp [List.filter_cons, hpa, hrest]
    · rw [if_neg hpa] at h
      cases ht : findIdxO p t with
      | none =>
        rw [ht] at h
        simp at h
      | some j =>
        rw [ht] at h
        simp only [Option.map_some'] at h
        rw [Option.some_inj] at h
        rw [← h]
        have := ih j hpw.2 ht
        simp only [Bool.not_eq_true] at hpa
        simp [List.eraseIdx_cons_succ, List.filter_cons, hpa, this]

/-- C7: for an admin session and a numeric id parameter denoting `K`,
deleting an id that no image carries returns NotFound (404) and leaves
the registry unchanged, whether or not storage removal would succeed;
deleting an id that some image carries removes exactly that record when
storage removal succeeds, and when the Cloudinary removal fails the
handler reports a 500 with the registry unchanged (the metadata record is
still present: either both metadata and binary go, or neither). -/
theorem deleteImage_spec (sess : Session) (hadm : isAdmin sess = true)
    (images : List Image) (idParam : String) (K : Int)
    (hK : parseIntJs idParam = JNum.int K)
    (hids : images.Pairwise (fun a b => a.id ≠ b.id)) :
    ((∀ img ∈ images, img.id ≠ K) →
      ∀ storageOk, deleteImage sess images idParam storageOk
        = (images, DeleteResp.err 404 "Image not found"))
    ∧ ((∃ img ∈ images, img.id = K) →
      deleteImage sess images idParam true
          = (images.filter (fun img => ! (img.id == K)),
             DeleteResp.ok "Image deleted successfully")
      ∧ deleteImage sess images idParam false
          = (images, DeleteResp.err 500 "Failed to delete image")) := by
  have hpred : (fun img : Image => JNum.seq (JNum.int img.id) (parseIntJs idParam))
      = (fun img : Image => img.id == K) := by
    funext img
    rw [hK]
    rfl
  constructor
  · intro hno storageOk
    have hnone : findIdxO (fun img : Image => img.id == K) images = none := by
      apply (findIdxO_eq_none_iff _ images).mpr
      intro a ha
      simpa using hno a ha
    unfold deleteImage
    rw [hadm, if_pos rfl, hpred, hnone]
  · intro hex
    have hsome : ∃ i, findIdxO (fun img : Image => img.id == K) images = some i := by
      cases h : findIdxO (fun img : Image => img.id == K) images with
      | none =>
        exfalso
        obtain ⟨img, hm, hid⟩ := hex
        have := (findIdxO_eq_none_iff _ images).mp h img hm
        simp [hid] at this
      | some i => exact ⟨i, rfl⟩
    obtain ⟨i, hi⟩ := hsome
    have herase : images.eraseIdx i = images.filter (fun img => ! (img.id == K)) := by
      apply eraseIdx_findIdxO _ images i _ hi
      refine hids.imp ?_
      intro a b hab hcon
      exact hab ((beq_iff_eq.mp hcon.1).trans (beq_iff_eq.mp hcon.2).symm)
    constructor
    · unfold deleteImage
      rw [hadm, if_pos rfl, hpred, hi]
      dsimp only
      rw [if_pos rfl, herase]
    · unfold deleteImage
      rw [hadm, if_pos rfl, hpred, hi]
      dsimp only
      rw [if_neg (by simp)]

/-- Witness for C7 at a concrete two-image registry, deleting id 1. -/
theorem deleteImage_spec_witness :
    deleteImage ⟨some 1, some "admin", some true⟩
        [⟨1, "a", "a", "u", "p", JNum.int 2, some "admin", 0, "u"⟩,
         ⟨2, "b", "b", "v", "q", JNum.int 3, some "admin", 0, "v"⟩] "1" true
      = (List.filter (fun img => ! (img.id == 1))
           [⟨1, "a", "a", "u", "p", JNum.int 2, some "admin", 0, "u"⟩,
            ⟨2, "b", "b", "v", "q", JNum.int 3, some "admin", 0, "v"⟩],
         DeleteResp.ok "Image deleted successfully")
    ∧ deleteImage ⟨some 1, some "admin", some true⟩
        [⟨1, "a", "a", "u", "p", JNum.int 2, some "admin", 0, "u"⟩,
         ⟨2, "b", "b", "v", "q", JNum.int 3, some "admin", 0, "v"⟩] "1" false
      = ([⟨1, "a", "a", "u", "p", JNum.int 2, some "admin", 0, "u"⟩,
          ⟨2, "b", "b", "v", "q", JNum.int 3, some "admin", 0, "v"⟩],
         DeleteResp.err 500 "Failed to delete image") := by
  exact (deleteImage_spec ⟨some 1, some "admin", some true⟩ rfl
    [⟨1, "a", "a", "u", "p", JNum.int 2, some "admin", 0, "u"⟩,
     ⟨2, "b", "b", "v", "q", JNum.int 3, some "admin", 0, "v"⟩] "1" 1
    (by decide) (by decide)).2
    ⟨⟨1, "a", "a", "u", "p", JNum.int 2, some "admin", 0, "u"⟩, by decide⟩

/-! ## C8 -/

/-- C8: for an admin session with a file attached, an upload whose MIME
type is outside the allow-list is rejected (400) with no Image record
created and no binary stored, whatever the storage backend would have
done; when binary storage fails no record is created either (500); and
the registry changes only if the binary was actually stored
(all-or-nothing). -/
theorem uploadImage_all_or_nothing (sess : Session) (hadm : isAdmin sess = true)
    (images : List Image) (f : FileData) (categoryId : Option String) (now : Nat) :
    (allowedTypes.contains f.mimetype = false →
      ∀ storageResult, uploadImage sess images (some f) categoryId now storageResult
        = (images, false, UploadResp.err 400 "Only image files allowed"))
    ∧ ((uploadImage sess images (some f) categoryId now none).1 = images
       ∧ (uploadImage sess images (some f) categoryId now none).2.1 = false)
    ∧ (∀ storageResult,
        (uploadImage sess images (some f) categoryId now storageResult).1 ≠ images →
        (uploadImage sess images (some f) categoryId now storageResult).2.1 = true) := by
  refine ⟨?_, ?_, ?_⟩
  · intro hmime storageResult
    unfold uploadImage
    rw [hadm, if_pos rfl]
    dsimp only
    rw [if_neg (by simpa using hmime)]
  · unfold uploadImage
    rw [hadm, if_pos rfl]
    dsimp only
    by_cases hmime : allowedTypes.contains f.mimetype = true
    · rw [if_pos hmime]
      exact ⟨rfl, rfl⟩
    · rw [if_neg hmime]
      exact ⟨rfl, rfl⟩
  · intro storageResult
    unfold uploadImage
    rw [hadm, if_pos rfl]
    dsimp only
    by_cases hmime : allowedTypes.contains f.mimetype = true
    · rw [if_pos hmime]
      cases storageResult with
      | none => intro h; exact absurd rfl h
      | some r =>
        obtain ⟨url, publicId⟩ := r
        intro _
        rfl
    · rw [if_neg hmime]
      intro h
      exact absurd rfl h

/-- Witness for C8 at a concrete admin session and a text/plain file. -/
theorem uploadImage_all_or_nothing_witness :
    uploadImage ⟨some 1, some "admin", some true⟩ [] (some ⟨"a.txt", "text/plain"⟩)
        none 0 (some ("u", "p"))
      = ([], false, UploadResp.err 400 "Only image files allowed")
    ∧ (uploadImage ⟨some 1, some "admin", some true⟩ [] (some ⟨"a.png", "image/png"⟩)
        none 0 none).1 = []
    ∧ (uploadImage ⟨some 1, some "admin", some true⟩ [] (some ⟨"a.png", "image/png"⟩)
        none 0 none).2.1 = false := by
  refine ⟨?_, ?_, ?_⟩
  · exact (uploadImage_all_or_nothing ⟨some 1, some "admin", some true⟩ rfl []
      ⟨"a.txt", "text/plain"⟩ none 0).1 (by decide) (some ("u", "p"))
  · exact ((uploadImage_all_or_nothing ⟨some 1, some "admin", some true⟩ rfl []
      ⟨"a.png", "image/png"⟩ none 0).2.1).1
  · exact ((uploadImage_all_or_nothing ⟨some 1, some "admin", some true⟩ rfl []
      ⟨"a.png", "image/png"⟩ none 0).2.1).2

/-! ## C9 -/

/-- A session that is anonymous or whose cached admin flag is false fails
the `isAdmin` middleware. -/
theorem isAdmin_false_of_not_admin (sess : Session)
    (hna : sess.userId = none ∨ sess.isAdmin = some false) :
    isAdmin sess = false := by
  unfold isAdmin
  rcases hna with h | h
  · rw [h]
    rfl
  · rw [h]
    simp

/-- C9: a caller whose session is anonymous or authenticated with
isAdmin=false receives status 403 (hence in \x7b401, 403\x7d and never
200) from category creation, upload, download and image delete, and the
corresponding registry is left unchanged. -/
theorem admin_gate_spec (sess : Session)
    (hna : sess.userId = none ∨ sess.isAdmin = some false)
    (categories : List Category) (name : String) (now : Nat)
    (images : List Image) (file : Option FileData) (categoryId : Option String)
    (storageResult : Option (String × String)) (idParam : String) (storageOk : Bool) :
    ((createCategory sess categories name now).1 = categories
      ∧ CatResp.status (createCategory sess categories name now).2 = 403)
    ∧ ((uploadImage sess images file categoryId now storageResult).1 = images
      ∧ UploadResp.status (uploadImage sess images file categoryId now storageResult).2.2
          = 403)
    ∧ DownloadResp.status (downloadImage sess images idParam) = 403
    ∧ ((deleteImage sess images idParam storageOk).1 = images
      ∧ DeleteResp.status (deleteImage sess images idParam storageOk).2 = 403)
    ∧ (403 : Nat) ≠ 200 := by
  have hguard := isAdmin_false_of_not_admin sess hna
  refine ⟨?_, ?_, ?_, ?_, by decide⟩
  · unfold createCategory
    rw [hguard]
    exact ⟨rfl, rfl⟩
  · unfold uploadImage
    rw [hguard]
    exact ⟨rfl, rfl⟩
  · unfold downloadImage
    rw [hguard]
    rfl
  · unfold deleteImage
    rw [hguard]
    exact ⟨rfl, rfl⟩

/-- Witness for C9 at the anonymous session. -/
theorem admin_gate_spec_witness :
    ((createCategory ⟨none, none, none⟩ [] "nature" 0).1 = []
      ∧ CatResp.status (createCategory ⟨none, none, none⟩ [] "nature" 0).2 = 403)
    ∧ ((uploadImage ⟨none, none, none⟩ [] (some ⟨"a.png", "image/png"⟩) none 0
          (some ("u", "p"))).1 = []
      ∧ UploadResp.status (uploadImage ⟨none, none, none⟩ []
          (some ⟨"a.png", "image/png"⟩) none 0 (some ("u", "p"))).2.2 = 403)
    ∧ DownloadResp.status (downloadImage ⟨none, none, none⟩ [] "1") = 403
    ∧ ((deleteImage ⟨none, none, none⟩ [] "1" true).1 = []
      ∧ DeleteResp.status (deleteImage ⟨none, none, none⟩ [] "1" true).2 = 403)
    ∧ (403 : Nat) ≠ 200 := by
  exact admin_gate_spec ⟨none, none, none⟩ (Or.inl rfl) [] "nature" 0 []
    (some ⟨"a.png", "image/png"⟩) none (some ("u", "p")) "1" true

/-! ## C10 -/

/-- NaN is strictly unequal to every JS number, itself included. -/
theorem JNum.seq_nan_left (x : JNum) : JNum.seq JNum.nan x = false := by
  cases x <;> rfl

/-- C10: an admin upload of an allowed file whose categoryId field is
absent or parses to NaN succeeds (given storage success) and records an
Image whose categoryId is NaN; that record appears in the unfiltered
listing but in no listing filtered by any (non-empty) category id string,
since NaN is strictly unequal to every parsed filter value. -/
theorem uploadImage_nan_category (sess : Session) (hadm : isAdmin sess = true)
    (images : List Image) (f : FileData)
    (hmime : allowedTypes.contains f.mimetype = true)
    (categoryId : Option String)
    (hcat : categoryId = none ∨ ∃ s, categoryId = some s ∧ parseIntJs s = JNum.nan)
    (now : Nat) (url publicId : String) :
    ∃ newImage : Image,
      uploadImage sess images (some f) categoryId now (some (url, publicId))
          = (images ++ [newImage], true, UploadResp.ok newImage)
      ∧ newImage.categoryId = JNum.nan
      ∧ newImage ∈ listImages (images ++ [newImage]) none
      ∧ ∀ q : String, q ≠ "" →
          newImage ∉ listImages (images ++ [newImage]) (some q) := by
  rcases hcat with h | ⟨s0, h, hs0⟩
  · subst h
    refine ⟨⟨(images.length : Int) + 1, f.name, f.name, url, publicId, JNum.nan,
        sess.username, now, url⟩, ?_, rfl, ?_, ?_⟩
    · unfold uploadImage
      rw [hadm, if_pos rfl]
      dsimp only
      rw [if_pos hmime]
    · unfold listImages
      exact List.mem_append_right images (List.mem_singleton.mpr rfl)
    · intro q hq
      unfold listImages
      dsimp only
      rw [if_neg (by simp [hq])]
      intro hmem
      have h2 := (List.mem_filter.mp hmem).2
      simp [JNum.seq_nan_left] at h2
  · subst h
    refine ⟨⟨(images.length : Int) + 1, f.name, f.name, url, publicId, parseIntJs s0,
        sess.username, now, url⟩, ?_, hs0, ?_, ?_⟩
    · unfold uploadImage
      rw [hadm, if_pos rfl]
      dsimp only
      rw [if_pos hmime]
    · unfold listImages
      exact List.mem_append_right images (List.mem_singleton.mpr rfl)
    · intro q hq
      unfold listImages
      dsimp only
      rw [if_neg (by simp [hq])]
      intro hmem
      have h2 := (List.mem_filter.mp hmem).2
      dsimp only at h2
      rw [hs0, JNum.seq_nan_left] at h2
      cases h2

/-- Witness for C10 at a concrete admin upload with no categoryId field. -/
theorem uploadImage_nan_category_witness :
    ∃ newImage : Image,
      uploadImage ⟨some 1, some "admin", some true⟩ [] (some ⟨"a.png", "image/png"⟩)
          none 0 (some ("u", "p"))
        = ([] ++ [newImage], true, UploadResp.ok newImage)
      ∧ newImage.categoryId = JNum.nan
      ∧ newImage ∈ listImages ([] ++ [newImage]) none
      ∧ ∀ q : String, q ≠ "" → newImage ∉ listImages ([] ++ [newImage]) (some q) := by
  exact uploadImage_nan_category ⟨some 1, some "admin", some true⟩ rfl []
    ⟨"a.png", "image/png"⟩ (by decide) none (Or.inl rfl) 0 "u" "p"
